import Mathlib

/-!
Shallow embedding of the stack-deployment lifecycle kernel of the mwc-demo
repository: the local CloudFormation template validator
(OnboardingAgent/src/main.py, `validate_cloudformation_template`) and the
three provisioning operations (ProvisioningAgent/src/main.py,
`deploy_cloudformation_stack`, `get_stack_status`, `get_stack_events`).

Python values produced by parsing YAML/JSON are modelled by `PyVal`;
Python exceptions that the code can raise or catch are modelled by `PyErr`;
the remote AWS backend calls are modelled as function parameters returning
`Except String _` (an `.error` models a raised botocore exception whose
`str(e)` is the carried message).
-/

namespace MwcDemo

/-- Values a Python `yaml.safe_load` / `json.loads` call can produce.
Mapping keys are modelled as strings (the only keys the validator ever
looks up are string literals). -/
inductive PyVal where
  | vnull
  | vbool (b : Bool)
  | vint (n : Int)
  | vstr (s : String)
  | vlist (xs : List PyVal)
  | vdict (kvs : List (String × PyVal))

/-- Exceptions arising inside `validate_cloudformation_template`, matching
the three `except` clauses of the source plus `KeyError` (unreachable in
the source, kept for a total subscript model). The string is `str(e)`. -/
inductive PyErr where
  | jsonDecodeError (msg : String)
  | yamlError (msg : String)
  | typeError (msg : String)
  | keyError (msg : String)
deriving Repr, DecidableEq

/-- Python `isinstance(v, dict)`. -/
def PyVal.isDict : PyVal → Bool
  | .vdict _ => true
  | _ => false

/-- Python `type(v).__name__`, used in `TypeError` messages. -/
def pyTypeName : PyVal → String
  | .vnull => "NoneType"
  | .vbool _ => "bool"
  | .vint _ => "int"
  | .vstr _ => "str"
  | .vlist _ => "list"
  | .vdict _ => "dict"

/-- Python `v == key` for a string literal `key` (used by `in` on a list). -/
def PyVal.eqStr : PyVal → String → Bool
  | .vstr t, s => t == s
  | _, _ => false

/-- Character-list version of "is a leading segment of". -/
def charsPre : List Char → List Char → Bool
  | [], _ => true
  | _ :: _, [] => false
  | a :: as, b :: bs => a == b && charsPre as bs

/-- Python `needle in hay` on strings: substring containment. -/
def strContains (hay needle : String) : Bool :=
  (List.range (hay.data.length + 1)).any
    (fun i => charsPre needle.data (hay.data.drop i))

/-- Python `key in v` for a string `key`: key lookup on a dict, membership
on a list, substring test on a string, and a `TypeError` otherwise. -/
def pyContains (key : String) : PyVal → Except PyErr Bool
  | .vdict kvs => .ok (kvs.any (fun kv => kv.1 == key))
  | .vlist xs => .ok (xs.any (fun x => x.eqStr key))
  | .vstr s => .ok (strContains s key)
  | v => .error (.typeError ("argument of type " ++ pyTypeName v ++ " is not iterable"))

/-- Python `v[key]` for a string `key`: dict lookup, `TypeError` on any
other container or scalar. -/
def pySubscript (v : PyVal) (key : String) : Except PyErr PyVal :=
  match v with
  | .vdict kvs =>
    match kvs.find? (fun kv => kv.1 == key) with
    | some kv => .ok kv.2
    | none => .error (.keyError key)
  | .vstr _ => .error (.typeError "string indices must be integers")
  | .vlist _ => .error (.typeError "list indices must be integers or slices, not str")
  | v => .error (.typeError (pyTypeName v ++ " object is not subscriptable"))

/-- Python `len(v)`: defined on dicts, lists and strings, `TypeError`
otherwise. -/
def pyLen : PyVal → Except PyErr Nat
  | .vdict kvs => .ok kvs.length
  | .vlist xs => .ok xs.length
  | .vstr s => .ok s.length
  | v => .error (.typeError ("object of type " ++ pyTypeName v ++ " has no len"))

/-- Result dictionary of the validator: the source returns either an
`errors` list (invalid) or a `message` (valid), never both. -/
structure VResult where
  valid : Bool
  errors : Option (List String)
  message : Option String
deriving Repr, DecidableEq

/-- The two text parsers the validator tries, supplied as parameters
(the source delegates to the PyYAML and json libraries); an `.error`
carries `str(e)` of the raised `yaml.YAMLError` / `json.JSONDecodeError`. -/
structure Parser where
  parseYaml : String → Except String PyVal
  parseJson : String → Except String PyVal

/-- Lines 25-30 of OnboardingAgent/src/main.py: try YAML; on a
`yaml.YAMLError` fall back to JSON, whose `json.JSONDecodeError`
propagates to the outer handler. -/
def parseAttempt (p : Parser) (s : String) : Except PyErr PyVal :=
  match p.parseYaml s with
  | .ok v => .ok v
  | .error _ =>
    match p.parseJson s with
    | .ok v => .ok v
    | .error e2 => .error (.jsonDecodeError e2)

/-- Lines 32-54 of OnboardingAgent/src/main.py: the four structural checks
accumulating into `errors`, each membership / subscript / len able to
raise, then the informational format-version membership test, then the
final result. -/
def structuralChecks (template_dict : PyVal) : Except PyErr VResult := do
  let errors0 : List String :=
    if template_dict.isDict then [] else ["Template must be a dictionary/object"]
  let mem1 ← pyContains "Resources" template_dict
  let errors1 := errors0 ++
    (if mem1 then [] else ["Template must contain 'Resources' section"])
  let errors2 ←
    if mem1 then do
      let r ← pySubscript template_dict "Resources"
      pure (errors1 ++ (if r.isDict then [] else ["'Resources' must be a dictionary"]))
    else pure errors1
  let errors3 ←
    if mem1 then do
      let r ← pySubscript template_dict "Resources"
      let n ← pyLen r
      pure (errors2 ++ (if n == 0 then ["'Resources' section cannot be empty"] else []))
    else pure errors2
  let _ ← pyContains "AWSTemplateFormatVersion" template_dict
  if errors3.isEmpty then
    pure { valid := true, errors := none, message := some "Template structure is valid" }
  else
    pure { valid := false, errors := some errors3, message := none }

/-- Whole body of the `try` block of `validate_cloudformation_template`. -/
def validateInner (p : Parser) (s : String) : Except PyErr VResult := do
  let template_dict ← parseAttempt p s
  structuralChecks template_dict

/-- Lines 56-61 of OnboardingAgent/src/main.py: the three `except`
handlers, each returning a one-element error list built from `str(e)`. -/
def pyErrResult : PyErr → VResult
  | .jsonDecodeError m => { valid := false, errors := some ["Invalid JSON: " ++ m], message := none }
  | .yamlError m => { valid := false, errors := some ["Invalid YAML: " ++ m], message := none }
  | .typeError m => { valid := false, errors := some ["Validation error: " ++ m], message := none }
  | .keyError m => { valid := false, errors := some ["Validation error: " ++ m], message := none }

/-- OnboardingAgent/src/main.py, `validate_cloudformation_template`
(lines 13-61): parse with YAML-then-JSON fallback, run the structural
checks, and turn any raised exception into a structured invalid result. -/
def validate_cloudformation_template (p : Parser) (s : String) : VResult :=
  match validateInner p s with
  | .ok r => r
  | .error e => pyErrResult e

/-! ProvisioningAgent/src/main.py.  The boto3 CloudFormation client calls
are modelled as function parameters; `.error e` models a raised exception
with `str(e) = e`. -/

/-- One entry of the `Parameters` list sent to `create_stack`. -/
structure CfnParameter where
  ParameterKey : String
  ParameterValue : String
deriving Repr, DecidableEq

/-- One entry of the `Tags` list sent to `create_stack`. -/
structure CfnTag where
  Key : String
  Value : String
deriving Repr, DecidableEq

/-- The keyword arguments of the `cfn_client.create_stack` call. -/
structure CreateStackRequest where
  StackName : String
  TemplateBody : String
  Parameters : List CfnParameter
  Capabilities : List String
  OnFailure : String
  Tags : List CfnTag
deriving Repr, DecidableEq

/-- The part of the `create_stack` response the code reads. -/
structure CreateStackResponse where
  StackId : String
deriving Repr, DecidableEq

/-- Result dictionary of `deploy_cloudformation_stack`: the success branch
carries `stack_id` and `status`, the failure branch carries `error`;
`message` is present in both. -/
structure DeployResult where
  success : Bool
  stack_id : Option String
  status : Option String
  message : String
  error : Option String
deriving Repr, DecidableEq

/-- Lines 31-50 of ProvisioningAgent/src/main.py: the request built for
`create_stack`.  `parameters = None` and `parameters = {}` are both falsy
in `if parameters:`, hence yield an empty `Parameters` list; otherwise the
dict items are converted in insertion order (the dict is modelled as its
ordered item list, values already strings so `str(v) = v`). -/
def deployRequest (stack_name template_body : String)
    (parameters : Option (List (String × String))) : CreateStackRequest :=
  let cfn_parameters : List CfnParameter :=
    match parameters with
    | none => []
    | some ps =>
      if ps.isEmpty then []
      else ps.map (fun kv => { ParameterKey := kv.1, ParameterValue := kv.2 })
  { StackName := stack_name
    TemplateBody := template_body
    Parameters := cfn_parameters
    Capabilities := ["CAPABILITY_IAM", "CAPABILITY_NAMED_IAM", "CAPABILITY_AUTO_EXPAND"]
    OnFailure := "ROLLBACK"
    Tags := [{ Key := "ManagedBy", Value := "MWCAgent" },
             { Key := "Agent", Value := "ProvisioningAgent" }] }

/-- Lines 52-64 of ProvisioningAgent/src/main.py: turn the `create_stack`
outcome into the returned dictionary. -/
def processCreateStack (stack_name : String)
    (outcome : Except String CreateStackResponse) : DeployResult :=
  match outcome with
  | .ok resp =>
    { success := true
      stack_id := some resp.StackId
      status := some "CREATE_IN_PROGRESS"
      message := "Stack " ++ stack_name ++ " deployment initiated successfully"
      error := none }
  | .error e =>
    { success := false
      stack_id := none
      status := none
      message := "Failed to deploy stack: " ++ e
      error := some e }

/-- ProvisioningAgent/src/main.py, `deploy_cloudformation_stack`
(lines 17-64). -/
def deploy_cloudformation_stack
    (create_stack : CreateStackRequest → Except String CreateStackResponse)
    (stack_name template_body : String)
    (parameters : Option (List (String × String))) : DeployResult :=
  processCreateStack stack_name
    (create_stack (deployRequest stack_name template_body parameters))

/-- One element of `describe_stack_resources(...)['StackResources']`;
`PhysicalResourceId` is the one key the code reads with `.get`. -/
structure RawStackResource where
  LogicalResourceId : String
  PhysicalResourceId : Option String
  ResourceType : String
  ResourceStatus : String
deriving Repr, DecidableEq

/-- One element of a stack's `Outputs` list. -/
structure RawStackOutput where
  OutputKey : String
  OutputValue : Option String
deriving Repr, DecidableEq

/-- The part of one `describe_stacks` stack record the code reads;
`CreationTime` / `LastUpdatedTime` are modelled as the string `str`
renders them to. -/
structure RawStack where
  StackName : String
  StackStatus : String
  Outputs : Option (List RawStackOutput)
  CreationTime : Option String
  LastUpdatedTime : Option String
deriving Repr, DecidableEq

/-- One formatted resource entry of the status result. -/
structure ResourceInfo where
  logical_id : String
  physical_id : String
  type : String
  status : String
deriving Repr, DecidableEq

/-- Result dictionary of `get_stack_status`: the success branch carries the
snapshot fields, the failure branch carries `error` and `message`. -/
structure StatusResult where
  success : Bool
  stack_name : Option String
  status : Option String
  resources : Option (List ResourceInfo)
  outputs : Option (List (String × String))
  creation_time : Option String
  last_updated : Option String
  error : Option String
  message : Option String
deriving Repr, DecidableEq

/-- Lines 83-91 of ProvisioningAgent/src/main.py: one resource record,
with `r.get('PhysicalResourceId', 'N/A')`. -/
def formatResource (r : RawStackResource) : ResourceInfo :=
  { logical_id := r.LogicalResourceId
    physical_id := r.PhysicalResourceId.getD "N/A"
    type := r.ResourceType
    status := r.ResourceStatus }

/-- Lines 93-99 of ProvisioningAgent/src/main.py: the outputs dict,
`{}` when the stack record has no `Outputs` key, else
`o.get('OutputValue', 'N/A')` per output (modelled as the ordered pair
list of the comprehension). -/
def formatOutputs (stack : RawStack) : List (String × String) :=
  match stack.Outputs with
  | none => []
  | some os => os.map (fun o => (o.OutputKey, o.OutputValue.getD "N/A"))

/-- The body of the `try` block of `get_stack_status`: the two backend
calls plus the `['Stacks'][0]` indexing, whose `IndexError` on an empty
list is also caught by the `except`. -/
def statusFetch (describe_stacks : String → Except String (List RawStack))
    (describe_stack_resources : String → Except String (List RawStackResource))
    (stack_name : String) : Except String (RawStack × List RawStackResource) := do
  let stackList ← describe_stacks stack_name
  let stack ← match stackList.head? with
    | some st => Except.ok st
    | none => Except.error "list index out of range"
  let raws ← describe_stack_resources stack_name
  pure (stack, raws)

/-- ProvisioningAgent/src/main.py, `get_stack_status` (lines 66-116). -/
def get_stack_status (describe_stacks : String → Except String (List RawStack))
    (describe_stack_resources : String → Except String (List RawStackResource))
    (stack_name : String) : StatusResult :=
  match statusFetch describe_stacks describe_stack_resources stack_name with
  | .ok (stack, raws) =>
    { success := true
      stack_name := some stack.StackName
      status := some stack.StackStatus
      resources := some (raws.map formatResource)
      outputs := some (formatOutputs stack)
      creation_time := some (stack.CreationTime.getD "N/A")
      last_updated := some (stack.LastUpdatedTime.getD "N/A")
      error := none
      message := none }
  | .error e =>
    { success := false
      stack_name := none
      status := none
      resources := none
      outputs := none
      creation_time := none
      last_updated := none
      error := some e
      message := some ("Failed to get stack status: " ++ e) }

/-- One element of `describe_stack_events(...)['StackEvents']`;
`ResourceStatusReason` is the one key read with `.get`;  `Timestamp` is
modelled as the string `str` renders it to. -/
structure RawStackEvent where
  Timestamp : String
  ResourceType : String
  LogicalResourceId : String
  ResourceStatus : String
  ResourceStatusReason : Option String
deriving Repr, DecidableEq

/-- One formatted event of the events result. -/
structure EventInfo where
  timestamp : String
  resource_type : String
  logical_id : String
  status : String
  reason : String
deriving Repr, DecidableEq

/-- Result dictionary of `get_stack_events`. -/
structure EventsResult where
  success : Bool
  events : Option (List EventInfo)
  error : Option String
  message : Option String
deriving Repr, DecidableEq

/-- Python's `l[:n]` for an integer `n`: for `0 ≤ n` the first `n`
elements, for `n < 0` everything but the last `-n` elements (empty when
`-n` exceeds the length). -/
def pySliceTo (l : List α) (n : Int) : List α :=
  if 0 ≤ n then l.take n.toNat
  else l.take ((l.length : Int) + n).toNat

/-- Lines 163-172 of ProvisioningAgent/src/main.py: one formatted event,
with `e.get('ResourceStatusReason', 'N/A')`. -/
def formatEvent (e : RawStackEvent) : EventInfo :=
  { timestamp := e.Timestamp
    resource_type := e.ResourceType
    logical_id := e.LogicalResourceId
    status := e.ResourceStatus
    reason := e.ResourceStatusReason.getD "N/A" }

/-- ProvisioningAgent/src/main.py, `get_stack_events` (lines 147-184);
`limit` is the Python keyword argument, `none` modelling an absent
argument, which the signature defaults to 10. -/
def get_stack_events (describe_stack_events : String → Except String (List RawStackEvent))
    (stack_name : String) (limit : Option Int) : EventsResult :=
  let lim := limit.getD 10
  match describe_stack_events stack_name with
  | .ok evs =>
    { success := true
      events := some ((pySliceTo evs lim).map formatEvent)
      error := none
      message := none }
  | .error e =>
    { success := false
      events := none
      error := some e
      message := some ("Failed to get stack events: " ++ e) }

/-! Helper lemmas. -/

/-- A list has a member satisfying `p` exactly when `find?` finds one. -/
lemma any_eq_isSome_find? {α : Type} (p : α → Bool) (l : List α) :
    l.any p = (l.find? p).isSome := by
  induction l with
  | nil => rfl
  | cons a as ih =>
    simp only [List.any_cons, List.find?]
    cases h : p a
    · simpa [h] using ih
    · simp [h]

/-- A character list is a leading segment of itself followed by anything. -/
lemma charsPre_append (l m : List Char) : charsPre l (l ++ m) = true := by
  induction l with
  | nil => rfl
  | cons a as ih => simp [charsPre, ih]

/-- A string starting with `needle` contains `needle`. -/
lemma strContains_of_charsPre (hay needle : String)
    (h : charsPre needle.data hay.data = true) : strContains hay needle = true := by
  unfold strContains
  apply List.any_eq_true.mpr
  exact ⟨0, List.mem_range.mpr (Nat.succ_pos _), by simpa using h⟩

/-- Appending anything to `needle` yields a string containing `needle`. -/
lemma strContains_append (needle rest : String) :
    strContains (needle ++ rest) needle = true := by
  apply strContains_of_charsPre
  show charsPre needle.data (needle.data ++ rest.data) = true
  exact charsPre_append _ _

/-- Structural checks on a mapping, characterized by the lookup of the
`Resources` key and the length of its value. -/
lemma structuralChecks_vdict (kvs : List (String × PyVal)) :
    structuralChecks (.vdict kvs) =
      match kvs.find? (fun kv => kv.1 == "Resources") with
      | none =>
        .ok { valid := false, errors := some ["Template must contain 'Resources' section"],
              message := none }
      | some kv =>
        match pyLen kv.2 with
        | .error e => .error e
        | .ok n =>
          let errs := (if kv.2.isDict then [] else ["'Resources' must be a dictionary"]) ++
            (if n == 0 then ["'Resources' section cannot be empty"] else [])
          if errs.isEmpty then
            .ok { valid := true, errors := none, message := some "Template structure is valid" }
          else
            .ok { valid := false, errors := some errs, message := none } := by
  have hany := any_eq_isSome_find? (fun kv : String × PyVal => kv.1 == "Resources") kvs
  cases hf : kvs.find? (fun kv => kv.1 == "Resources") with
  | none =>
    rw [hf] at hany
    simp [structuralChecks, pyContains, PyVal.isDict, hany,
      Bind.bind, Except.bind, pure, Except.pure]
  | some kv =>
    rw [hf] at hany
    cases hl : pyLen kv.2 with
    | error e =>
      simp [structuralChecks, pyContains, pySubscript, PyVal.isDict, hany, hf, hl,
        Bind.bind, Except.bind, pure, Except.pure]
    | ok n =>
      simp [structuralChecks, pyContains, pySubscript, PyVal.isDict, hany, hf, hl,
        Bind.bind, Except.bind, pure, Except.pure]

/-- Structural checks on a list top-level value. -/
lemma structuralChecks_vlist (xs : List PyVal) :
    structuralChecks (.vlist xs) =
      if xs.any (fun x => x.eqStr "Resources") then
        .error (.typeError "list indices must be integers or slices, not str")
      else
        .ok { valid := false,
              errors := some ["Template must be a dictionary/object",
                              "Template must contain 'Resources' section"],
              message := none } := by
  cases h : xs.any (fun x => x.eqStr "Resources") <;>
    simp [structuralChecks, pyContains, pySubscript, PyVal.isDict, h,
      Bind.bind, Except.bind, pure, Except.pure]

/-- Structural checks on a string top-level value. -/
lemma structuralChecks_vstr (t : String) :
    structuralChecks (.vstr t) =
      if strContains t "Resources" then
        .error (.typeError "string indices must be integers")
      else
        .ok { valid := false,
              errors := some ["Template must be a dictionary/object",
                              "Template must contain 'Resources' section"],
              message := none } := by
  cases h : strContains t "Resources" <;>
    simp [structuralChecks, pyContains, pySubscript, PyVal.isDict, h,
      Bind.bind, Except.bind, pure, Except.pure]

/-- Structural checks on null raise a `TypeError` at the membership test. -/
lemma structuralChecks_vnull :
    structuralChecks .vnull =
      .error (.typeError "argument of type NoneType is not iterable") := rfl

/-- Structural checks on a boolean raise a `TypeError`. -/
lemma structuralChecks_vbool (b : Bool) :
    structuralChecks (.vbool b) =
      .error (.typeError "argument of type bool is not iterable") := rfl

/-- Structural checks on a number raise a `TypeError`. -/
lemma structuralChecks_vint (n : Int) :
    structuralChecks (.vint n) =
      .error (.typeError "argument of type int is not iterable") := rfl

/-- The validator's result once parsing has produced a value. -/
lemma validate_eq_of_parse (p : Parser) (s : String) (v : PyVal)
    (hp : parseAttempt p s = .ok v) :
    validate_cloudformation_template p s =
      match structuralChecks v with
      | .ok r => r
      | .error e => pyErrResult e := by
  simp [validate_cloudformation_template, validateInner, hp, Bind.bind, Except.bind]

/-- Any handled exception yields `valid = false`. -/
lemma pyErrResult_valid (e : PyErr) : (pyErrResult e).valid = false := by
  cases e <;> rfl

/-- Any handled exception yields a one-element error list. -/
lemma pyErrResult_errors (e : PyErr) : ∃ m, (pyErrResult e).errors = some [m] := by
  cases e <;> exact ⟨_, rfl⟩

/-- When the first backend call and the indexing succeed, `statusFetch`
returns the first stack record and the resource list. -/
lemma statusFetch_ok (describe_stacks : String → Except String (List RawStack))
    (describe_stack_resources : String → Except String (List RawStackResource))
    (stack_name : String) (stackList : List RawStack) (st : RawStack)
    (raws : List RawStackResource)
    (h1 : describe_stacks stack_name = .ok stackList)
    (h2 : stackList.head? = some st)
    (h3 : describe_stack_resources stack_name = .ok raws) :
    statusFetch describe_stacks describe_stack_resources stack_name = .ok (st, raws) := by
  simp [statusFetch, h1, h2, h3, Bind.bind, Except.bind, pure, Except.pure]

/-! Claim theorems. -/

/-- A one-event backend used to exhibit the slice semantics of `limit`. -/
def eventsBackend1 : String → Except String (List RawStackEvent) :=
  fun _ => .ok [{ Timestamp := "2024-01-01 00:00:00"
                  ResourceType := "AWS::S3::Bucket"
                  LogicalResourceId := "Bucket"
                  ResourceStatus := "CREATE_COMPLETE"
                  ResourceStatusReason := none }]

/-- C1 counterexample: on a backend with one event, the explicit
non-positive limit 0 yields an empty event list, not the default-10
behavior the claim asserts (which would return the event, as the absent
limit does). -/
theorem get_stack_events_zero_limit_counterexample :
    (get_stack_events eventsBackend1 "demo" (some 0)).events = some [] ∧
    get_stack_events eventsBackend1 "demo" (some 0) ≠
      get_stack_events eventsBackend1 "demo" none := by
  refine ⟨rfl, ?_⟩
  intro h
  have := congrArg EventsResult.events h
  simp [get_stack_events, eventsBackend1, pySliceTo] at this

/-- C1 amended: with a successful backend call, a positive limit keeps
exactly the first `limit` formatted events (clamped to the list length) in
unmodified order, an absent limit defaults to 10, while a non-positive
limit follows Python slice semantics: 0 yields no events and a negative
limit drops the last `-limit` events; truncation commutes with the
per-event formatting, so the order is never changed. -/
theorem get_stack_events_limit_spec
    (describe_stack_events : String → Except String (List RawStackEvent))
    (stack_name : String) (evs : List RawStackEvent)
    (h : describe_stack_events stack_name = .ok evs) :
    (∀ k : Int, 0 < k →
      (get_stack_events describe_stack_events stack_name (some k)).events =
        some ((evs.take k.toNat).map formatEvent)) ∧
    ((get_stack_events describe_stack_events stack_name none).events =
      some ((evs.take 10).map formatEvent)) ∧
    ((get_stack_events describe_stack_events stack_name (some 0)).events = some []) ∧
    (∀ k : Int, k < 0 →
      (get_stack_events describe_stack_events stack_name (some k)).events =
        some ((evs.take ((evs.length : Int) + k).toNat).map formatEvent)) ∧
    (∀ k : Nat, (evs.take k).map formatEvent = (evs.map formatEvent).take k) := by
  refine ⟨?_, ?_, ?_, ?_, ?_⟩
  · intro k hk
    simp [get_stack_events, h, pySliceTo, le_of_lt hk]
  · simp [get_stack_events, h, pySliceTo]
  · simp [get_stack_events, h, pySliceTo]
  · intro k hk
    simp [get_stack_events, h, pySliceTo, not_le.mpr hk]
  · intro k
    simp [List.map_take]

/-- C1 witness: the amended statement applied to the one-event backend. -/
theorem get_stack_events_limit_spec_witness :
    (get_stack_events eventsBackend1 "demo" none).events =
      some (([({ Timestamp := "2024-01-01 00:00:00"
                 ResourceType := "AWS::S3::Bucket"
                 LogicalResourceId := "Bucket"
                 ResourceStatus := "CREATE_COMPLETE"
                 ResourceStatusReason := none } : RawStackEvent)].take 10).map formatEvent) :=
  (get_stack_events_limit_spec eventsBackend1 "demo" _ rfl).2.1

/-- A parser standing for `yaml.safe_load` succeeding with the number 42
(the YAML document "42"). -/
def intParser : Parser :=
  { parseYaml := fun _ => .ok (.vint 42), parseJson := fun _ => .error "unused" }

/-- C2 counterexample: the input "42" parses to a non-mapping (a number),
but the membership test `"Resources" not in 42` raises a `TypeError`, so
the error list is the single handler message and does not contain
"Template must be a dictionary/object". -/
theorem validate_number_counterexample :
    validate_cloudformation_template intParser "42" =
      { valid := false,
        errors := some ["Validation error: argument of type int is not iterable"],
        message := none } ∧
    "Template must be a dictionary/object" ∉
      ["Validation error: argument of type int is not iterable"] := by
  exact ⟨rfl, by decide⟩

/-- C2 amended: a successfully parsed non-mapping always yields
`valid = false`; the error list contains "Template must be a
dictionary/object" when the value is a list with no element "Resources"
or a string not containing "Resources" (then accumulated with the missing
`Resources` error), while null, booleans and numbers make the membership
test raise, producing the single handler error instead. -/
theorem validate_non_mapping_spec (p : Parser) (s : String) (v : PyVal)
    (hp : parseAttempt p s = .ok v) (hv : v.isDict = false) :
    ((validate_cloudformation_template p s).valid = false) ∧
    (∀ xs, v = .vlist xs → xs.any (fun x => x.eqStr "Resources") = false →
      validate_cloudformation_template p s =
        { valid := false,
          errors := some ["Template must be a dictionary/object",
                          "Template must contain 'Resources' section"],
          message := none }) ∧
    (∀ t, v = .vstr t → strContains t "Resources" = false →
      validate_cloudformation_template p s =
        { valid := false,
          errors := some ["Template must be a dictionary/object",
                          "Template must contain 'Resources' section"],
          message := none }) ∧
    ((v = .vnull ∨ (∃ b, v = .vbool b) ∨ (∃ n, v = .vint n)) →
      validate_cloudformation_template p s =
        { valid := false,
          errors := some ["Validation error: argument of type " ++ pyTypeName v ++
                          " is not iterable"],
          message := none }) := by
  rw [validate_eq_of_parse p s v hp]
  refine ⟨?_, ?_, ?_, ?_⟩
  · cases v with
    | vnull => rfl
    | vbool b => rfl
    | vint n => rfl
    | vstr t =>
      rw [structuralChecks_vstr]
      cases h : strContains t "Resources" <;> simp [h, pyErrResult]
    | vlist xs =>
      rw [structuralChecks_vlist]
      cases h : xs.any (fun x => x.eqStr "Resources") <;> simp [h, pyErrResult]
    | vdict kvs => simp [PyVal.isDict] at hv
  · rintro xs rfl hmem
    rw [structuralChecks_vlist, hmem]
    rfl
  · rintro t rfl hmem
    rw [structuralChecks_vstr, hmem]
    rfl
  · rintro (rfl | ⟨b, rfl⟩ | ⟨n, rfl⟩) <;> rfl

/-- A parser standing for `yaml.safe_load` succeeding with the empty
list (the YAML document "[]"). -/
def emptyListParser : Parser :=
  { parseYaml := fun _ => .ok (.vlist []), parseJson := fun _ => .error "unused" }

/-- C2 witness: the amended statement applied to the empty-list parse. -/
theorem validate_non_mapping_spec_witness :
    validate_cloudformation_template emptyListParser "[]" =
      { valid := false,
        errors := some ["Template must be a dictionary/object",
                        "Template must contain 'Resources' section"],
        message := none } :=
  (validate_non_mapping_spec emptyListParser "[]" (.vlist []) rfl rfl).2.1 [] rfl rfl

/-- A parser standing for `yaml.safe_load` succeeding with the mapping
`Resources: 5` (a `Resources` value that has no length). -/
def resourcesNumberParser : Parser :=
  { parseYaml := fun _ => .ok (.vdict [("Resources", .vint 5)])
    parseJson := fun _ => .error "unused" }

/-- C3 counterexample: a mapping whose `Resources` value is the number 5
is a present non-mapping `Resources`, yet `len(5)` raises before the
accumulated errors are returned, so the single resulting error does not
mention "must be a dictionary". -/
theorem validate_resources_number_counterexample :
    validate_cloudformation_template resourcesNumberParser "Resources: 5" =
      { valid := false,
        errors := some ["Validation error: object of type int has no len"],
        message := none } ∧
    strContains "Validation error: object of type int has no len"
      "must be a dictionary" = false := by
  exact ⟨rfl, by decide⟩

/-- C3 amended: on a parsed mapping, a missing `Resources` key yields
exactly the error mentioning `Resources`; when `Resources` is present and
its value supports `len` (a mapping, list or string), a non-mapping value
contributes the "must be a dictionary" error, a zero-length value
contributes the "cannot be empty" error, and an empty list yields both
accumulated errors; but a present `Resources` value without a length
(e.g. a number) makes `len` raise, so the result is the single handler
error instead of the accumulated list. -/
theorem validate_resources_errors_spec (p : Parser) (s : String)
    (kvs : List (String × PyVal))
    (hp : parseAttempt p s = .ok (.vdict kvs)) :
    (kvs.find? (fun kv => kv.1 == "Resources") = none →
      validate_cloudformation_template p s =
        { valid := false,
          errors := some ["Template must contain 'Resources' section"],
          message := none }) ∧
    (∀ kv, kvs.find? (fun kv => kv.1 == "Resources") = some kv →
      (∀ n, pyLen kv.2 = .ok n → kv.2.isDict = false →
        ∃ l, (validate_cloudformation_template p s).errors = some l ∧
          "'Resources' must be a dictionary" ∈ l ∧
          (validate_cloudformation_template p s).valid = false) ∧
      (pyLen kv.2 = .ok 0 →
        ∃ l, (validate_cloudformation_template p s).errors = some l ∧
          "'Resources' section cannot be empty" ∈ l ∧
          (validate_cloudformation_template p s).valid = false) ∧
      (kv.2 = .vlist [] →
        validate_cloudformation_template p s =
          { valid := false,
            errors := some ["'Resources' must be a dictionary",
                            "'Resources' section cannot be empty"],
            message := none }) ∧
      (∀ m, pyLen kv.2 = .error (.typeError m) →
        validate_cloudformation_template p s =
          { valid := false, errors := some ["Validation error: " ++ m],
            message := none })) := by
  rw [validate_eq_of_parse p s _ hp, structuralChecks_vdict]
  constructor
  · intro hf
    simp only [hf]
  · intro kv hf
    simp only [hf]
    refine ⟨?_, ?_, ?_, ?_⟩
    · intro n hn hd
      simp only [hn, hd]
      cases n with
      | zero => exact ⟨_, rfl, by simp, rfl⟩
      | succ m => exact ⟨_, rfl, by simp, rfl⟩
    · intro hn
      simp only [hn]
      cases hd : kv.2.isDict
      · exact ⟨_, rfl, by simp, rfl⟩
      · exact ⟨_, rfl, by simp, rfl⟩
    · intro he
      simp only [he]
      rfl
    · intro m hm
      simp only [hm]
      rfl

/-- A parser standing for `yaml.safe_load` succeeding with the mapping
`Resources: []` (an empty list as `Resources`). -/
def resourcesEmptyListParser : Parser :=
  { parseYaml := fun _ => .ok (.vdict [("Resources", .vlist [])])
    parseJson := fun _ => .error "unused" }

/-- C3 witness: the amended statement applied to `Resources: []`, which
yields both accumulated errors. -/
theorem validate_resources_errors_spec_witness :
    validate_cloudformation_template resourcesEmptyListParser "Resources: []" =
      { valid := false,
        errors := some ["'Resources' must be a dictionary",
                        "'Resources' section cannot be empty"],
        message := none } :=
  (((validate_resources_errors_spec resourcesEmptyListParser "Resources: []"
      [("Resources", .vlist [])] rfl).2 ("Resources", .vlist []) rfl).2.2.1) rfl

/-- C6: when YAML parsing fails and the JSON fallback also fails, the
result is `valid = false` with exactly one error, built from the
last-attempted format (JSON) and containing "Invalid"; and when YAML
parsing succeeds, the JSON parser is never consulted: any parser agreeing
on YAML gives the identical result. -/
theorem validate_parse_fallback (p : Parser) (s : String) :
    (∀ ey ej, p.parseYaml s = .error ey → p.parseJson s = .error ej →
      validate_cloudformation_template p s =
        { valid := false, errors := some ["Invalid JSON: " ++ ej], message := none } ∧
      strContains ("Invalid JSON: " ++ ej) "Invalid" = true) ∧
    (∀ (q : Parser) (v : PyVal), q.parseYaml s = p.parseYaml s →
      p.parseYaml s = .ok v →
      validate_cloudformation_template q s = validate_cloudformation_template p s) := by
  constructor
  · intro ey ej hy hj
    constructor
    · simp [validate_cloudformation_template, validateInner, parseAttempt, hy, hj,
        Bind.bind, Except.bind, pyErrResult]
    · have h1 : ("Invalid JSON: " ++ ej : String) = "Invalid" ++ (" JSON: " ++ ej) := by
        rw [← String.append_assoc]
        rfl
      rw [h1]
      exact strContains_append "Invalid" (" JSON: " ++ ej)
  · intro q v hq hv
    have h2 : parseAttempt q s = parseAttempt p s := by
      simp [parseAttempt, hq, hv]
    simp [validate_cloudformation_template, validateInner, h2]

/-- A pair of parsers that both fail, standing for an input that is
neither valid YAML nor valid JSON. -/
def bothFailParser : Parser :=
  { parseYaml := fun _ => .error "mapping values are not allowed here"
    parseJson := fun _ => .error "Expecting value: line 1 column 1" }

/-- C6 witness: the fallback statement applied to a doubly-failing
input. -/
theorem validate_parse_fallback_witness :
    validate_cloudformation_template bothFailParser "not: [valid, yaml, [" =
      { valid := false,
        errors := some ["Invalid JSON: Expecting value: line 1 column 1"],
        message := none } :=
  ((validate_parse_fallback bothFailParser "not: [valid, yaml, [").1
    "mapping values are not allowed here" "Expecting value: line 1 column 1" rfl rfl).1

/-- C7: whenever the validator answers `valid = true`, re-parsing the same
input (the same YAML-then-JSON attempt, which is deterministic) yields a
mapping whose `Resources` key holds a non-empty mapping. -/
theorem validate_roundtrip (p : Parser) (s : String)
    (h : (validate_cloudformation_template p s).valid = true) :
    ∃ kvs rs, parseAttempt p s = .ok (.vdict kvs) ∧
      pySubscript (.vdict kvs) "Resources" = .ok (.vdict rs) ∧ rs ≠ [] := by
  cases ha : parseAttempt p s with
  | error e =>
    rw [validate_cloudformation_template, validateInner] at h
    simp only [ha, Bind.bind, Except.bind] at h
    rw [pyErrResult_valid] at h
    exact absurd h (by simp)
  | ok v =>
    rw [validate_eq_of_parse p s v ha] at h
    cases v with
    | vnull => rw [structuralChecks_vnull] at h; simp [pyErrResult] at h
    | vbool b => rw [structuralChecks_vbool] at h; simp [pyErrResult] at h
    | vint n => rw [structuralChecks_vint] at h; simp [pyErrResult] at h
    | vstr t =>
      rw [structuralChecks_vstr] at h
      cases hm : strContains t "Resources" <;> simp [hm, pyErrResult] at h
    | vlist xs =>
      rw [structuralChecks_vlist] at h
      cases hm : xs.any (fun x => x.eqStr "Resources") <;> simp [hm, pyErrResult] at h
    | vdict kvs =>
      rw [structuralChecks_vdict] at h
      cases hf : kvs.find? (fun kv => kv.1 == "Resources") with
      | none => simp only [hf] at h; simp at h
      | some kv =>
        simp only [hf] at h
        cases hl : pyLen kv.2 with
        | error e => simp only [hl] at h; cases e <;> simp [pyErrResult] at h
        | ok n =>
          simp only [hl] at h
          cases hd : kv.2.isDict with
          | false => by_cases hz : (n == 0) = true <;> simp [hd, hz] at h
          | true =>
            by_cases hz : (n == 0) = true
            · simp [hd, hz] at h
            · cases hkv : kv.2 with
              | vdict rs =>
                refine ⟨kvs, rs, rfl, ?_, ?_⟩
                · simp [pySubscript, hf, hkv]
                · intro hnil
                  rw [hkv, hnil] at hl
                  rw [pyLen] at hl
                  have hn0 : n = 0 := by simpa using hl.symm
                  rw [hn0] at hz
                  simp at hz
              | vnull => rw [hkv] at hd; simp [PyVal.isDict] at hd
              | vbool b => rw [hkv] at hd; simp [PyVal.isDict] at hd
              | vint m => rw [hkv] at hd; simp [PyVal.isDict] at hd
              | vstr u => rw [hkv] at hd; simp [PyVal.isDict] at hd
              | vlist ys => rw [hkv] at hd; simp [PyVal.isDict] at hd

/-- A parser standing for `yaml.safe_load` succeeding with a minimal valid
template: a mapping with one resource under `Resources`. -/
def goodTemplateParser : Parser :=
  { parseYaml := fun _ =>
      .ok (.vdict [("Resources", .vdict [("MyBucket", .vdict [("Type", .vstr "AWS::S3::Bucket")])])])
    parseJson := fun _ => .error "unused" }

/-- C7 witness: the round-trip statement applied to a valid minimal
template. -/
theorem validate_roundtrip_witness :
    ∃ kvs rs, parseAttempt goodTemplateParser "tmpl" = .ok (.vdict kvs) ∧
      pySubscript (.vdict kvs) "Resources" = .ok (.vdict rs) ∧ rs ≠ [] :=
  validate_roundtrip goodTemplateParser "tmpl" rfl

/-- C4: when the backend `create_stack` call succeeds, the returned result
is exactly `success = true`, status `CREATE_IN_PROGRESS` and the
backend-assigned stack identifier (non-empty whenever the backend's is);
a supplied parameters mapping is converted into the ordered
key/value-pair list of the submission, and an absent `parameters`
argument behaves exactly as an empty mapping. -/
theorem deploy_success_spec
    (create_stack : CreateStackRequest → Except String CreateStackResponse)
    (stack_name template_body : String) (parameters : Option (List (String × String)))
    (resp : CreateStackResponse)
    (h : create_stack (deployRequest stack_name template_body parameters) = .ok resp) :
    (deploy_cloudformation_stack create_stack stack_name template_body parameters =
      { success := true
        stack_id := some resp.StackId
        status := some "CREATE_IN_PROGRESS"
        message := "Stack " ++ stack_name ++ " deployment initiated successfully"
        error := none }) ∧
    (resp.StackId ≠ "" →
      (deploy_cloudformation_stack create_stack stack_name template_body parameters).stack_id
        ≠ some "") ∧
    (∀ ps : List (String × String),
      (deployRequest stack_name template_body (some ps)).Parameters =
        ps.map (fun kv => { ParameterKey := kv.1, ParameterValue := kv.2 })) ∧
    (deploy_cloudformation_stack create_stack stack_name template_body none =
      deploy_cloudformation_stack create_stack stack_name template_body (some [])) := by
  refine ⟨?_, ?_, ?_, ?_⟩
  · simp [deploy_cloudformation_stack, processCreateStack, h]
  · intro hne
    simp [deploy_cloudformation_stack, processCreateStack, h, hne]
  · intro ps
    cases ps with
    | nil => simp [deployRequest]
    | cons a as => simp [deployRequest]
  · rfl

/-- A backend accepting any submission, returning a fixed stack ARN. -/
def okBackend : CreateStackRequest → Except String CreateStackResponse :=
  fun _ => .ok { StackId := "arn:aws:cloudformation:stack/demo-stack/1" }

/-- C4 witness: the submission-success statement applied to a concrete
accepting backend. -/
theorem deploy_success_spec_witness :
    deploy_cloudformation_stack okBackend "demo-stack" "Resources: ..." none =
      { success := true
        stack_id := some "arn:aws:cloudformation:stack/demo-stack/1"
        status := some "CREATE_IN_PROGRESS"
        message := "Stack " ++ "demo-stack" ++ " deployment initiated successfully"
        error := none } :=
  (deploy_success_spec okBackend "demo-stack" "Resources: ..." none
    { StackId := "arn:aws:cloudformation:stack/demo-stack/1" } rfl).1

/-- C5: every submission built by `deploy_cloudformation_stack`, whatever
the caller supplies, declares exactly the three capabilities
CAPABILITY_IAM, CAPABILITY_NAMED_IAM and CAPABILITY_AUTO_EXPAND, fixes
`OnFailure` to ROLLBACK and attaches the two fixed provenance tags; and
the function interacts with the backend only through that one request. -/
theorem deploy_fixed_request_spec (stack_name template_body : String)
    (parameters : Option (List (String × String))) :
    ((deployRequest stack_name template_body parameters).Capabilities =
      ["CAPABILITY_IAM", "CAPABILITY_NAMED_IAM", "CAPABILITY_AUTO_EXPAND"]) ∧
    ((deployRequest stack_name template_body parameters).OnFailure = "ROLLBACK") ∧
    ((deployRequest stack_name template_body parameters).Tags =
      [{ Key := "ManagedBy", Value := "MWCAgent" },
       { Key := "Agent", Value := "ProvisioningAgent" }]) ∧
    (∀ create_stack : CreateStackRequest → Except String CreateStackResponse,
      deploy_cloudformation_stack create_stack stack_name template_body parameters =
        processCreateStack stack_name
          (create_stack (deployRequest stack_name template_body parameters))) :=
  ⟨rfl, rfl, rfl, fun _ => rfl⟩

/-- C8: every exception inside one of the four core operations is turned
into a structured result: a raised parse/type error inside the validator
yields `valid = false` with a one-element error list; a failing
`create_stack` yields `success = false` with an error message; a failure
inside the status fetch (either backend call, or indexing an empty stack
list) yields `success = false` with a message; a failing
`describe_stack_events` yields `success = false` with a message.  All
four functions are total, so no error escapes to the caller. -/
theorem structured_error_results :
    (∀ (p : Parser) (s : String) (e : PyErr), validateInner p s = .error e →
      validate_cloudformation_template p s = pyErrResult e ∧
      (pyErrResult e).valid = false ∧ ∃ m, (pyErrResult e).errors = some [m]) ∧
    (∀ (create_stack : CreateStackRequest → Except String CreateStackResponse)
        (stack_name template_body : String)
        (parameters : Option (List (String × String))) (e : String),
      create_stack (deployRequest stack_name template_body parameters) = .error e →
      deploy_cloudformation_stack create_stack stack_name template_body parameters =
        { success := false, stack_id := none, status := none,
          message := "Failed to deploy stack: " ++ e, error := some e }) ∧
    (∀ (ds : String → Except String (List RawStack))
        (dr : String → Except String (List RawStackResource))
        (stack_name : String) (e : String),
      statusFetch ds dr stack_name = .error e →
      get_stack_status ds dr stack_name =
        { success := false, stack_name := none, status := none, resources := none,
          outputs := none, creation_time := none, last_updated := none,
          error := some e,
          message := some ("Failed to get stack status: " ++ e) }) ∧
    (∀ (de : String → Except String (List RawStackEvent))
        (stack_name : String) (limit : Option Int) (e : String),
      de stack_name = .error e →
      get_stack_events de stack_name limit =
        { success := false, events := none, error := some e,
          message := some ("Failed to get stack events: " ++ e) }) := by
  refine ⟨?_, ?_, ?_, ?_⟩
  · intro p s e he
    refine ⟨?_, pyErrResult_valid e, pyErrResult_errors e⟩
    rw [validate_cloudformation_template, he]
  · intro create_stack stack_name template_body parameters e he
    rw [deploy_cloudformation_stack, he]
    rfl
  · intro ds dr stack_name e he
    rw [get_stack_status, he]
  · intro de stack_name limit e he
    rw [get_stack_events]
    rw [he]

/-- C8 witness: the deployment conjunct applied to a backend raising a
name-collision error. -/
theorem structured_error_results_witness :
    deploy_cloudformation_stack (fun _ => .error "AlreadyExistsException") "demo" "tb" none =
      { success := false, stack_id := none, status := none,
        message := "Failed to deploy stack: " ++ "AlreadyExistsException",
        error := some "AlreadyExistsException" } :=
  structured_error_results.2.1 (fun _ => .error "AlreadyExistsException")
    "demo" "tb" none "AlreadyExistsException" rfl

/-- C10: on a successful status fetch, every resource whose backend record
lacks a physical identifier is rendered with the literal string N/A, every
output lacking a value is rendered with N/A, and absent creation / last
update times are rendered as N/A; every field of the returned snapshot is
populated (none is absent or null). -/
theorem status_na_spec (ds : String → Except String (List RawStack))
    (dr : String → Except String (List RawStackResource)) (stack_name : String)
    (stackList : List RawStack) (st : RawStack) (raws : List RawStackResource)
    (h1 : ds stack_name = .ok stackList) (h2 : stackList.head? = some st)
    (h3 : dr stack_name = .ok raws) :
    ((get_stack_status ds dr stack_name).resources = some (raws.map formatResource)) ∧
    (∀ r ∈ raws, r.PhysicalResourceId = none → (formatResource r).physical_id = "N/A") ∧
    (∀ os, st.Outputs = some os → ∀ o ∈ os, o.OutputValue = none →
      (o.OutputKey, "N/A") ∈ formatOutputs st) ∧
    (st.CreationTime = none → (get_stack_status ds dr stack_name).creation_time = some "N/A") ∧
    (st.LastUpdatedTime = none → (get_stack_status ds dr stack_name).last_updated = some "N/A") ∧
    ((get_stack_status ds dr stack_name).success = true) ∧
    ((get_stack_status ds dr stack_name).stack_name = some st.StackName) ∧
    ((get_stack_status ds dr stack_name).status = some st.StackStatus) ∧
    ((get_stack_status ds dr stack_name).outputs = some (formatOutputs st)) ∧
    ((get_stack_status ds dr stack_name).creation_time.isSome = true) ∧
    ((get_stack_status ds dr stack_name).last_updated.isSome = true) := by
  have hfetch := statusFetch_ok ds dr stack_name stackList st raws h1 h2 h3
  refine ⟨?_, ?_, ?_, ?_, ?_, ?_, ?_, ?_, ?_, ?_, ?_⟩
  · simp [get_stack_status, hfetch]
  · intro r _ hr
    simp [formatResource, hr]
  · intro os hos o ho hval
    rw [formatOutputs, hos]
    exact List.mem_map.mpr ⟨o, ho, by rw [hval]; rfl⟩
  · intro hc
    simp [get_stack_status, hfetch, hc]
  · intro hl
    simp [get_stack_status, hfetch, hl]
  · simp [get_stack_status, hfetch]
  · simp [get_stack_status, hfetch]
  · simp [get_stack_status, hfetch]
  · simp [get_stack_status, hfetch]
  · simp [get_stack_status, hfetch]
  · simp [get_stack_status, hfetch]

/-- A one-stack backend whose record has no outputs or timestamps. -/
def stackBackend1 : String → Except String (List RawStack) :=
  fun _ => .ok [{ StackName := "demo"
                  StackStatus := "CREATE_IN_PROGRESS"
                  Outputs := some [{ OutputKey := "BucketName", OutputValue := none }]
                  CreationTime := none
                  LastUpdatedTime := none }]

/-- A resources backend with one not-yet-provisioned resource. -/
def resourcesBackend1 : String → Except String (List RawStackResource) :=
  fun _ => .ok [{ LogicalResourceId := "Bucket"
                  PhysicalResourceId := none
                  ResourceType := "AWS::S3::Bucket"
                  ResourceStatus := "CREATE_IN_PROGRESS" }]

/-- C10 witness: the snapshot statement applied to concrete backends with
an unassigned physical id, an absent output value and absent times. -/
theorem status_na_spec_witness :
    (get_stack_status stackBackend1 resourcesBackend1 "demo").resources =
      some ([({ LogicalResourceId := "Bucket"
                PhysicalResourceId := none
                ResourceType := "AWS::S3::Bucket"
                ResourceStatus := "CREATE_IN_PROGRESS" } : RawStackResource)].map formatResource) :=
  (status_na_spec stackBackend1 resourcesBackend1 "demo" _ _ _ rfl rfl rfl).1

end MwcDemo
